import Mathlib

/-!
Shallow embedding of `src/server.js` (study-group-portal): an Express
application exposing session-gated document upload/download/delete and
knowledge-article/comment routes over sqlite tables.  Database rows are
modelled as Lean structures, the four tables as lists inside a
`ServerState`, SQL `ORDER BY` as a stable sort by the named column,
`AUTOINCREMENT` ids as per-table counters, and the uploads directory as a
list of file paths.  `DATETIME` values are modelled as natural-number
timestamps.  Database/filesystem failures (the 500 branches of every
callback) are outside the pure model and are noted where relevant.
-/

namespace StudyGroupPortal

/- ## Sessions and the requireAuth middleware (src/server.js lines 17-31) -/

/-- The per-request session: `req.session.userId` is absent until login sets
it to the user's row id; `req.session.username` likewise. -/
structure Session where
  userId : Option Nat
  username : String
deriving DecidableEq

/-- JavaScript truthiness of `req.session.userId`: `undefined` is falsy,
and a number is falsy exactly when it is 0. -/
def natTruthy : Option Nat → Bool
  | none => false
  | some n => n != 0

/-- The condition tested by `if (req.session.userId)`. -/
def sessionAuthenticated (s : Session) : Bool :=
  natTruthy s.userId

/-- Outcome of a middleware: either control passes to the handler
(`next()`) or the response is an HTML redirect. -/
inductive Gate where
  | proceed
  | redirect (location : String)
deriving DecidableEq

/-- The `requireAuth` middleware (lines 25-31): calls `next()` when the
session carries a truthy userId and otherwise responds
`res.redirect('/login')` — for every route it is mounted on. -/
def requireAuth (s : Session) : Gate :=
  if sessionAuthenticated s then .proceed else .redirect "/login"

/- ## Database rows and server state (lines 34-77) -/

/-- A row of the `users` table; `password` stores the bcrypt hash. -/
structure User where
  id : Nat
  username : String
  password : String
deriving DecidableEq

/-- A row of the `documents` table. -/
structure DocumentRow where
  id : Nat
  title : String
  file_path : String
  original_filename : String
  author : String
  upload_date : Nat
  update_date : Nat
deriving DecidableEq

/-- A row of the `articles` table. -/
structure ArticleRow where
  id : Nat
  title : String
  content : String
  author : String
  created_at : Nat
  updated_at : Nat
deriving DecidableEq

/-- A row of the `comments` table.  The schema declares
`FOREIGN KEY (article_id) REFERENCES articles (id)` but sqlite does not
enforce it unless foreign_keys is switched on, which the server never
does. -/
structure CommentRow where
  id : Nat
  article_id : Nat
  content : String
  author : String
  created_at : Nat
deriving DecidableEq

/-- The whole persistent state: the four tables, the uploads directory
(as the list of file paths present on disk), and the `AUTOINCREMENT`
counter of each table that the routes insert into. -/
structure ServerState where
  users : List User
  documents : List DocumentRow
  articles : List ArticleRow
  comments : List CommentRow
  files : List String
  nextDocumentId : Nat
  nextArticleId : Nat
  nextCommentId : Nat
deriving DecidableEq

/- ## Filename handling (multer diskStorage, lines 80-91) -/

/-- Index of the last occurrence of a dot in the character list, threading
the running index and the best candidate so far. -/
def lastDotIdx : List Char → Nat → Option Nat → Option Nat
  | [], _, acc => acc
  | c :: rest, i, acc => lastDotIdx rest (i + 1) (if c = '.' then some i else acc)

/-- Node's `path.extname` / `path.basename` pair on a bare filename (no
directory separators): the extension runs from the last dot to the end,
except that a dot in first position (a dotfile) yields no extension. -/
def splitExt (name : String) : String × String :=
  match lastDotIdx name.toList 0 none with
  | none => (name, "")
  | some i => if i = 0 then (name, "") else (⟨name.toList.take i⟩, ⟨name.toList.drop i⟩)

/-- Characters kept verbatim by the sanitizer: the regex class
`[a-zA-Z0-9-_]` of line 87. -/
def isSafeChar (c : Char) : Bool :=
  c.isAlphanum || c = '-' || c = '_'

/-- `basename.replace(/[^a-zA-Z0-9-_]/g, '_')` (line 87): every character
outside the safe class becomes an underscore. -/
def sanitizeBase (basename : String) : String :=
  ⟨basename.toList.map (fun c => if isSafeChar c then c else '_')⟩

/-- The multer `storage.filename` callback (lines 84-90): splits the
original name into basename and extension, sanitizes the basename, and
produces the template string `safeBasename_timestamp + ext`. -/
def storageFilename (originalname : String) (timestamp : Nat) : String :=
  let ext := (splitExt originalname).2
  let basename := (splitExt originalname).1
  let safeBasename := sanitizeBase basename
  safeBasename ++ "_" ++ toString timestamp ++ ext

/- ## Upload filtering and limits (multer options, lines 93-107) -/

/-- The allowed extensions of `fileFilter` (line 99). -/
def allowedTypes : List String :=
  [".pdf", ".doc", ".docx", ".ppt", ".pptx", ".xlsx", ".xls", ".txt"]

/-- The rejection message produced by `fileFilter` (line 104). -/
def fileTypeError : String :=
  "許可されていないファイル形式です。PDF, Word, PowerPoint, Excel, テキストファイルのみアップロード可能です。"

/-- JavaScript `String.prototype.toLowerCase` restricted to the ASCII
range (every allowed extension is ASCII), mapped characterwise. -/
def lowerAscii (s : String) : String :=
  ⟨s.toList.map Char.toLower⟩

/-- `upload.fileFilter` (lines 98-107): accepts when the lowercased
extension of the original name is allowed (`allowedTypes.includes(ext)`),
otherwise produces a plain `Error` with `fileTypeError` as its message. -/
def fileFilter (originalname : String) : Option String :=
  let ext := lowerAscii (splitExt originalname).2
  if ext ∈ allowedTypes then none else some fileTypeError

/-- `limits.fileSize` (line 96): 10 * 1024 * 1024 bytes. -/
def fileSizeLimit : Nat := 10 * 1024 * 1024

/-- A file part arriving with a multipart request: its client-supplied
name and its size in bytes. -/
structure IncomingFile where
  originalname : String
  size : Nat
deriving DecidableEq

/-- The `req.file` object the multer middleware hands to the handler. -/
structure UploadedFile where
  path : String
  originalname : String
deriving DecidableEq

/-- Errors the multer middleware can pass to `next(err)`:
`MulterError` with code `LIMIT_FILE_SIZE` when the stream exceeds
`limits.fileSize`, or the plain `Error` thrown by `fileFilter` (a plain
`Error` is NOT an instance of `multer.MulterError`). -/
inductive UploadError where
  | limitFileSize
  | generic (message : String)
deriving DecidableEq

/-- Result of running `upload.single('file')` on a request. -/
inductive MulterResult where
  | ok (file : Option UploadedFile) (st : ServerState)
  | err (e : UploadError) (st : ServerState)

/-- The `upload.single('file')` middleware with the configured
`diskStorage`, `limits` and `fileFilter`: with no file part it proceeds
with `req.file` unset; otherwise `fileFilter` runs first (when the part's
headers arrive), then the body is streamed to disk subject to
`limits.fileSize` (multer removes the partial file on that error), and on
success the file sits in `uploads/` under the `storageFilename` name and
`req.file` carries its path and original name. -/
def multerSingle (st : ServerState) (ts : Nat) (file : Option IncomingFile) : MulterResult :=
  match file with
  | none => .ok none st
  | some f =>
    match fileFilter f.originalname with
    | some msg => .err (.generic msg) st
    | none =>
      if fileSizeLimit < f.size then .err .limitFileSize st
      else
        let p := "uploads/" ++ storageFilename f.originalname ts
        .ok (some ⟨p, f.originalname⟩) { st with files := st.files ++ [p] }

/-- Response of the upload route (and of the error-handling middleware
that catches multer errors). -/
inductive UploadResponse where
  | okJson (message : String) (id : Nat)
  | errJson (status : Nat) (error : String)
  | redirect (location : String)
deriving DecidableEq

/-- HTTP status of an upload response (`res.json` without `res.status`
sends 200; `res.redirect` sends 302). -/
def uploadResponseStatus : UploadResponse → Nat
  | .okJson _ _ => 200
  | .errJson s _ => s
  | .redirect _ => 302

/-- The error-handling middleware (lines 420-427): a `MulterError` whose
code is `LIMIT_FILE_SIZE` gets 400 with the size message; every other
error — including the plain `Error` thrown by `fileFilter` — falls
through to `res.status(500).json(\x7b error: error.message \x7d)`. -/
def errorHandler : UploadError → UploadResponse
  | .limitFileSize => .errJson 400 "ファイルサイズが大きすぎます（上限: 10MB）"
  | .generic msg => .errJson 500 msg

/-- `POST /api/upload` (lines 333-361), composed as mounted:
`requireAuth`, then `upload.single('file')` (errors going to the
error-handling middleware), then the handler, which 400s when `req.file`
is unset or when title or the session author is empty, and otherwise
inserts a `documents` row and answers with the new id.  The model elides
the db-error 500 branch of `stmt.run`. -/
def postUpload (st : ServerState) (sess : Session) (file : Option IncomingFile)
    (title : String) (ts : Nat) : UploadResponse × ServerState :=
  match requireAuth sess with
  | .redirect loc => (.redirect loc, st)
  | .proceed =>
    match multerSingle st ts file with
    | .err e st1 => (errorHandler e, st1)
    | .ok none st1 => (.errJson 400 "ファイルが選択されていません。", st1)
    | .ok (some f) st1 =>
      let author := sess.username
      if title = "" ∨ author = "" then
        (.errJson 400 "タイトルと作成者は必須です。", st1)
      else
        let row : DocumentRow :=
          ⟨st1.nextDocumentId, title, f.path, f.originalname, author, ts, ts⟩
        (.okJson "ファイルが正常にアップロードされました。" st1.nextDocumentId,
          { st1 with documents := st1.documents ++ [row],
                     nextDocumentId := st1.nextDocumentId + 1 })

/- ## Login (POST /api/login, lines 119-141) -/

/-- Response of the login route. -/
inductive LoginResponse where
  | ok (message : String) (username : String)
  | err (status : Nat) (error : String)
deriving DecidableEq

/-- The single 401 message of the login route (lines 128 and 138). -/
def loginFailureMessage : String := "ユーザー名またはパスワードが正しくありません"

/-- `db.get('SELECT * FROM users WHERE username = ?')`: the first row
whose username matches. -/
def findUserByName (users : List User) (username : String) : Option User :=
  users.find? (fun u => u.username == username)

/-- `POST /api/login` with `bcrypt.compare` abstracted as the boolean
`compare password storedHash`; the db-error 500 branch is elided.  On
success the session is established (not modelled here beyond the
response, which carries the username). -/
def login (users : List User) (compare : String → String → Bool)
    (username password : String) : LoginResponse :=
  match findUserByName users username with
  | none => .err 401 loginFailureMessage
  | some user =>
    if compare password user.password then .ok "ログイン成功" user.username
    else .err 401 loginFailureMessage

/- ## Listings (lines 224-275): `ORDER BY` embedded as a stable sort -/

/-- `ORDER BY upload_date DESC`: an earlier row's timestamp is at least
the later row's. -/
def docNewerFirst (a b : DocumentRow) : Prop := b.upload_date ≤ a.upload_date

instance : DecidableRel docNewerFirst :=
  fun a b => inferInstanceAs (Decidable (b.upload_date ≤ a.upload_date))

instance : IsTotal DocumentRow docNewerFirst :=
  ⟨fun a b => Nat.le_total b.upload_date a.upload_date⟩

instance : IsTrans DocumentRow docNewerFirst :=
  ⟨fun _ _ _ hab hbc => Nat.le_trans hbc hab⟩

/-- `ORDER BY created_at DESC` on articles. -/
def articleNewerFirst (a b : ArticleRow) : Prop := b.created_at ≤ a.created_at

instance : DecidableRel articleNewerFirst :=
  fun a b => inferInstanceAs (Decidable (b.created_at ≤ a.created_at))

instance : IsTotal ArticleRow articleNewerFirst :=
  ⟨fun a b => Nat.le_total b.created_at a.created_at⟩

instance : IsTrans ArticleRow articleNewerFirst :=
  ⟨fun _ _ _ hab hbc => Nat.le_trans hbc hab⟩

/-- `ORDER BY created_at ASC` on comments. -/
def commentOlderFirst (a b : CommentRow) : Prop := a.created_at ≤ b.created_at

instance : DecidableRel commentOlderFirst :=
  fun a b => inferInstanceAs (Decidable (a.created_at ≤ b.created_at))

instance : IsTotal CommentRow commentOlderFirst :=
  ⟨fun a b => Nat.le_total a.created_at b.created_at⟩

instance : IsTrans CommentRow commentOlderFirst :=
  ⟨fun _ _ _ hab hbc => Nat.le_trans hab hbc⟩

/-- `SELECT * FROM documents ORDER BY upload_date DESC` (line 225). -/
def listDocuments (st : ServerState) : List DocumentRow :=
  st.documents.insertionSort docNewerFirst

/-- `SELECT * FROM articles ORDER BY created_at DESC` (line 236). -/
def listArticles (st : ServerState) : List ArticleRow :=
  st.articles.insertionSort articleNewerFirst

/-- `SELECT * FROM comments WHERE article_id = ? ORDER BY created_at ASC`
(line 268). -/
def listComments (st : ServerState) (articleId : Nat) : List CommentRow :=
  (st.comments.filter (fun c => c.article_id == articleId)).insertionSort commentOlderFirst

/-- Response of `GET /api/documents` (the db-error 500 branch elided). -/
inductive DocumentsResponse where
  | rows (rows : List DocumentRow)
  | redirect (location : String)
deriving DecidableEq

/-- `GET /api/documents` (lines 224-232) as mounted behind `requireAuth`. -/
def getApiDocuments (st : ServerState) (sess : Session) : DocumentsResponse :=
  match requireAuth sess with
  | .redirect loc => .redirect loc
  | .proceed => .rows (listDocuments st)

/- ## Download and delete (lines 364-417) -/

/-- `db.get('SELECT * FROM documents WHERE id = ?')`. -/
def findDocumentById (st : ServerState) (id : Nat) : Option DocumentRow :=
  st.documents.find? (fun d => d.id == id)

/-- Response of `GET /api/download/:id`. -/
inductive DownloadResponse where
  | fileDownload (path : String) (downloadName : String)
  | err (status : Nat) (error : String)
  | redirect (location : String)
deriving DecidableEq

/-- `GET /api/download/:id` (lines 364-387): 404 when no row matches, 404
when the row's file is gone from disk, otherwise `res.download` of the
file under the original filename.  The db-error 500 branch is elided. -/
def getDownload (st : ServerState) (sess : Session) (id : Nat) : DownloadResponse :=
  match requireAuth sess with
  | .redirect loc => .redirect loc
  | .proceed =>
    match findDocumentById st id with
    | none => .err 404 "ファイルが見つかりません。"
    | some row =>
      if row.file_path ∈ st.files then .fileDownload row.file_path row.original_filename
      else .err 404 "ファイルが存在しません。"

/-- Response of `DELETE /api/documents/:id`. -/
inductive DeleteResponse where
  | ok (message : String)
  | err (status : Nat) (error : String)
  | redirect (location : String)
deriving DecidableEq

/-- `DELETE /api/documents/:id` (lines 390-417): 404 when no row matches;
otherwise `fs.unlinkSync` of the row's file guarded by `fs.existsSync`,
then `DELETE FROM documents WHERE id = ?`.  The db-error 500 branches are
elided. -/
def deleteDocument (st : ServerState) (sess : Session) (id : Nat) :
    DeleteResponse × ServerState :=
  match requireAuth sess with
  | .redirect loc => (.redirect loc, st)
  | .proceed =>
    match findDocumentById st id with
    | none => (.err 404 "ファイルが見つかりません。", st)
    | some row =>
      let files1 := if row.file_path ∈ st.files
        then st.files.erase row.file_path else st.files
      (.ok "文書が正常に削除されました。",
        { st with files := files1,
                  documents := st.documents.filter (fun d => d.id != id) })

/- ## Comments (POST /api/articles/:id/comments, lines 305-330) -/

/-- Response of the comment-creation route. -/
inductive CommentResponse where
  | ok (message : String) (id : Nat)
  | err (status : Nat) (error : String)
  | redirect (location : String)
deriving DecidableEq

/-- `POST /api/articles/:id/comments` as mounted behind `requireAuth`:
400 when content or the session author is empty, otherwise inserts a
`comments` row referencing `articleId` — with no check that an articles
row with that id exists — and answers with the new id.  The db-error 500
branch of `stmt.run` is elided. -/
def postComment (st : ServerState) (sess : Session) (articleId : Nat)
    (content : String) (ts : Nat) : CommentResponse × ServerState :=
  match requireAuth sess with
  | .redirect loc => (.redirect loc, st)
  | .proceed =>
    let author := sess.username
    if content = "" ∨ author = "" then
      (.err 400 "コメント内容と作成者は必須です。", st)
    else
      let id := st.nextCommentId
      (.ok "コメントが正常に投稿されました。" id,
        { st with comments := st.comments ++ [⟨id, articleId, content, author, ts⟩],
                  nextCommentId := id + 1 })

/- ## Page routes (lines 194-221) -/

/-- Response of a page route. -/
inductive PageResponse where
  | sendFile (name : String)
  | redirect (location : String)
deriving DecidableEq

/-- `GET /` (lines 194-196): mounted WITHOUT `requireAuth`, it sends
`index.html` whatever the session holds.  (The `express.static('public')`
middleware of line 191 would likewise serve `index.html` for `/` without
any auth check.) -/
def getRootPage (_sess : Session) : PageResponse :=
  .sendFile "index.html"

/-- `GET /documents` (lines 199-201), behind `requireAuth`. -/
def getDocumentsPage (sess : Session) : PageResponse :=
  match requireAuth sess with
  | .redirect loc => .redirect loc
  | .proceed => .sendFile "documents.html"

/-- `GET /knowledge` (lines 204-206), behind `requireAuth`. -/
def getKnowledgePage (sess : Session) : PageResponse :=
  match requireAuth sess with
  | .redirect loc => .redirect loc
  | .proceed => .sendFile "knowledge.html"

/-- `GET /upload` (lines 219-221), behind `requireAuth`. -/
def getUploadPage (sess : Session) : PageResponse :=
  match requireAuth sess with
  | .redirect loc => .redirect loc
  | .proceed => .sendFile "upload.html"

/- ## Spec-side definitions for the filename claim -/

/-- Modelled from the spec's words for comparison with `storageFilename`:
the stored name obtained by STRIPPING (removing) every character outside
`[A-Za-z0-9-_]` from the base filename, then appending a millisecond
timestamp and the original extension. -/
def specStripFilename (originalname : String) (timestamp : Nat) : String :=
  let ext := (splitExt originalname).2
  let basename := (splitExt originalname).1
  (⟨basename.toList.filter isSafeChar⟩ : String) ++ toString timestamp ++ ext

/-- Modelled from the spec as amended, for comparison with
`storageFilename`: every character outside `[A-Za-z0-9-_]` in the base
filename is replaced by an underscore, and the stored name is the
sanitized base, an underscore separator, the millisecond timestamp and
the original extension. -/
def specReplaceFilename (originalname : String) (timestamp : Nat) : String :=
  let ext := (splitExt originalname).2
  let basename := (splitExt originalname).1
  (⟨basename.toList.map (fun c => if isSafeChar c then c else '_')⟩ : String)
    ++ "_" ++ toString timestamp ++ ext

/- ## Concrete fixtures used by witnesses and counterexamples -/

/-- A state with empty tables, an empty uploads directory and fresh
counters. -/
def emptyState : ServerState := ⟨[], [], [], [], [], 1, 1, 1⟩

/-- A session established by a successful login of user id 1. -/
def authedSession : Session := ⟨some 1, "alice"⟩

/-- A request carrying no session. -/
def noSession : Session := ⟨none, ""⟩

/-- A sample users table holding one registered user. -/
def demoUsers : List User := [⟨1, "alice", "storedhash"⟩]

/-- A bcrypt comparison that verifies no password (every hash check
fails). -/
def alwaysFalseCompare : String → String → Bool := fun _ _ => false

/-- A sample documents row whose file is present on disk. -/
def demoDoc : DocumentRow := ⟨1, "handout", "uploads/f_10.pdf", "f.pdf", "alice", 10, 10⟩

/-- A state holding `demoDoc` and its on-disk file. -/
def demoState : ServerState := ⟨[], [demoDoc], [], [], ["uploads/f_10.pdf"], 2, 1, 1⟩

/- ## Helper lemmas shared across claims -/

/-- With a truthy session userId, `requireAuth` passes control on. -/
theorem requireAuth_proceed {sess : Session} (h : sessionAuthenticated sess = true) :
    requireAuth sess = Gate.proceed := by
  simp [requireAuth, h]

/-- Without a truthy session userId, `requireAuth` redirects to /login. -/
theorem requireAuth_redirect {sess : Session} (h : sessionAuthenticated sess = false) :
    requireAuth sess = Gate.redirect "/login" := by
  simp [requireAuth, h]

/-- Claim C1 (code behavior at the claim's failing input): the claim says
a request to a protected API route with no valid session gets a 401 JSON
error; the code's `requireAuth` gate instead answers every gated route,
`GET /api/documents` included, with an HTML redirect to `/login`. -/
theorem C1_api_documents_redirects_without_session (st : ServerState) :
    getApiDocuments st noSession = DocumentsResponse.redirect "/login"
    ∧ requireAuth noSession = Gate.redirect "/login" :=
  ⟨rfl, rfl⟩

/-- Claim C2, counterexample: for the upload named "a b.txt" at
timestamp 100 the code stores "a_b_100.txt" (space REPLACED by an
underscore, plus an underscore separator), while the claimed
strip-then-append recipe yields "ab100.txt"; the two differ. -/
theorem C2_counterexample :
    storageFilename "a b.txt" 100 = "a_b_100.txt"
    ∧ specStripFilename "a b.txt" 100 = "ab100.txt"
    ∧ storageFilename "a b.txt" 100 ≠ specStripFilename "a b.txt" 100 := by
  refine ⟨rfl, rfl, ?_⟩
  decide

/-- Claim C2 as amended: the stored name replaces (not strips) each
character outside [A-Za-z0-9-_] of the base filename with an underscore
and appends an underscore separator, the millisecond timestamp and the
original extension; every character of the sanitized base is in the safe
class. -/
theorem C2_filename_sanitizes_by_replacement (originalname : String) (timestamp : Nat) :
    storageFilename originalname timestamp = specReplaceFilename originalname timestamp
    ∧ ∀ c ∈ (sanitizeBase (splitExt originalname).1).toList, isSafeChar c = true := by
  constructor
  · rfl
  · intro c hc
    have hc2 : c ∈ ((splitExt originalname).1).toList.map
        (fun a => if isSafeChar a then a else '_') := hc
    obtain ⟨a, _, rfl⟩ := List.mem_map.mp hc2
    cases h : isSafeChar a with
    | true => simp [h]
    | false =>
      simp [h]
      decide

/-- Claim C2, witness of the amended statement at a concrete input. -/
theorem C2_witness :
    storageFilename "my report(v2).pdf" 99 = specReplaceFilename "my report(v2).pdf" 99 :=
  (C2_filename_sanitizes_by_replacement "my report(v2).pdf" 99).1

/-- Claim C3: every failed login attempt — the username matching no users
row, or the stored hash failing to verify — answers 401 with the one
`loginFailureMessage`, identical in both cases. -/
theorem C3_login_failure_message_uniform (users : List User)
    (compare : String → String → Bool) (username password : String) :
    (findUserByName users username = none →
      login users compare username password = LoginResponse.err 401 loginFailureMessage)
    ∧ (∀ user, findUserByName users username = some user →
        compare password user.password = false →
        login users compare username password = LoginResponse.err 401 loginFailureMessage) := by
  constructor
  · intro h
    simp [login, h]
  · intro user hu hc
    simp [login, hu, hc]

/-- Claim C3, witness: an unknown username and a wrong password against a
registered user yield the identical 401 response. -/
theorem C3_witness :
    login demoUsers alwaysFalseCompare "mallory" "pw" = LoginResponse.err 401 loginFailureMessage
    ∧ login demoUsers alwaysFalseCompare "alice" "pw" = LoginResponse.err 401 loginFailureMessage :=
  ⟨(C3_login_failure_message_uniform demoUsers alwaysFalseCompare "mallory" "pw").1 (by decide),
   (C3_login_failure_message_uniform demoUsers alwaysFalseCompare "alice" "pw").2
     ⟨1, "alice", "storedhash"⟩ (by decide) (by decide)⟩

/-- Claim C4, counterexample: an authorized upload of "report.exe" is
rejected with status 500 — not the claimed 400 — because the plain
`Error` of `fileFilter` is no `MulterError` and falls into the generic
500 branch of the error handler; the state (no row, no file) is
unchanged. -/
theorem C4_counterexample :
    uploadResponseStatus
        (postUpload emptyState authedSession (some ⟨"report.exe", 5⟩) "title" 0).1 = 500
    ∧ uploadResponseStatus
        (postUpload emptyState authedSession (some ⟨"report.exe", 5⟩) "title" 0).1 ≠ 400
    ∧ (postUpload emptyState authedSession (some ⟨"report.exe", 5⟩) "title" 0).2 = emptyState := by
  refine ⟨rfl, ?_, rfl⟩
  decide

/-- Claim C4 as amended: every authorized upload whose lowercased
extension is outside the allowed set is rejected with 500 carrying the
file-filter message, and neither a documents row nor a file on disk is
created (the state is returned unchanged). -/
theorem C4_disallowed_extension_rejected (st : ServerState) (sess : Session)
    (f : IncomingFile) (title : String) (ts : Nat)
    (hauth : sessionAuthenticated sess = true)
    (hext : lowerAscii (splitExt f.originalname).2 ∉ allowedTypes) :
    postUpload st sess (some f) title ts = (UploadResponse.errJson 500 fileTypeError, st) := by
  simp [postUpload, requireAuth_proceed hauth, multerSingle, fileFilter, hext, errorHandler]

/-- Claim C4, witness of the amended statement at a concrete input. -/
theorem C4_witness :
    postUpload emptyState authedSession (some ⟨"virus.bat", 1⟩) "handout" 3
      = (UploadResponse.errJson 500 fileTypeError, emptyState) :=
  C4_disallowed_extension_rejected emptyState authedSession ⟨"virus.bat", 1⟩ "handout" 3
    (by decide) (by decide)

/-- Claim C5: every authorized upload that passes the extension filter
but exceeds 10 * 1024 * 1024 bytes is rejected with status 400 (the
`LIMIT_FILE_SIZE` branch of the error handler), leaving the state
unchanged. -/
theorem C5_oversize_upload_rejected_400 (st : ServerState) (sess : Session)
    (f : IncomingFile) (title : String) (ts : Nat)
    (hauth : sessionAuthenticated sess = true)
    (hext : lowerAscii (splitExt f.originalname).2 ∈ allowedTypes)
    (hsize : fileSizeLimit < f.size) :
    postUpload st sess (some f) title ts
      = (UploadResponse.errJson 400 "ファイルサイズが大きすぎます（上限: 10MB）", st) := by
  simp [postUpload, requireAuth_proceed hauth, multerSingle, fileFilter, hext, hsize, errorHandler]

/-- Claim C5, witness: a 10485761-byte PDF upload is rejected with 400. -/
theorem C5_witness :
    postUpload emptyState authedSession (some ⟨"big.pdf", 10485761⟩) "slides" 4
      = (UploadResponse.errJson 400 "ファイルサイズが大きすぎます（上限: 10MB）", emptyState) :=
  C5_oversize_upload_rejected_400 emptyState authedSession ⟨"big.pdf", 10485761⟩ "slides" 4
    (by decide) (by decide) (by decide)

/-- Claim C6: every documents listing is sorted newest-first by
upload_date, every articles listing newest-first by created_at, every
comments listing oldest-first by created_at — and each listing is a
permutation of the underlying (filtered) table, so no row is dropped or
invented by the ordering. -/
theorem C6_listing_order (st : ServerState) (articleId : Nat) :
    List.Sorted docNewerFirst (listDocuments st)
    ∧ List.Perm (listDocuments st) st.documents
    ∧ List.Sorted articleNewerFirst (listArticles st)
    ∧ List.Perm (listArticles st) st.articles
    ∧ List.Sorted commentOlderFirst (listComments st articleId)
    ∧ List.Perm (listComments st articleId)
        (st.comments.filter (fun c => c.article_id == articleId)) := by
  refine ⟨?_, ?_, ?_, ?_, ?_, ?_⟩
  · exact List.sorted_insertionSort docNewerFirst st.documents
  · exact List.perm_insertionSort docNewerFirst st.documents
  · exact List.sorted_insertionSort articleNewerFirst st.articles
  · exact List.perm_insertionSort articleNewerFirst st.articles
  · exact List.sorted_insertionSort commentOlderFirst _
  · exact List.perm_insertionSort commentOlderFirst _

/-- Claim C7: with a valid session, deleting a missing id answers 404
leaving the state untouched; deleting an existing row answers the
success message, removes the on-disk file (tolerating its absence: the
erase of an absent path is the identity), removes every matching row, and
afterwards the document is gone from the listing and its download answers
404. -/
theorem C7_delete_document (st : ServerState) (sess : Session) (id : Nat)
    (hauth : sessionAuthenticated sess = true) :
    (findDocumentById st id = none →
      deleteDocument st sess id = (DeleteResponse.err 404 "ファイルが見つかりません。", st))
    ∧ (∀ row, findDocumentById st id = some row →
        (deleteDocument st sess id).1 = DeleteResponse.ok "文書が正常に削除されました。"
        ∧ (deleteDocument st sess id).2.files = st.files.erase row.file_path
        ∧ (∀ d ∈ listDocuments (deleteDocument st sess id).2, d.id ≠ id)
        ∧ getDownload (deleteDocument st sess id).2 sess id
            = DownloadResponse.err 404 "ファイルが見つかりません。") := by
  have hgate := requireAuth_proceed hauth
  constructor
  · intro h
    simp [deleteDocument, hgate, h]
  · intro row hrow
    have hdel : deleteDocument st sess id
        = (DeleteResponse.ok "文書が正常に削除されました。",
           { st with
              files := (if row.file_path ∈ st.files
                then st.files.erase row.file_path else st.files),
              documents := st.documents.filter (fun d => d.id != id) }) := by
      simp [deleteDocument, hgate, hrow]
    have hfind : (st.documents.filter (fun d => d.id != id)).find?
        (fun d => d.id == id) = none := by
      rw [List.find?_eq_none]
      intro x hx
      have hne := (List.mem_filter.mp hx).2
      simpa using hne
    refine ⟨?_, ?_, ?_, ?_⟩
    · rw [hdel]
    · rw [hdel]
      by_cases hm : row.file_path ∈ st.files
      · simp [hm]
      · simp [hm, List.erase_of_not_mem hm]
    · intro d hd
      rw [hdel] at hd
      have hd2 : d ∈ st.documents.filter (fun x => x.id != id) :=
        (List.perm_insertionSort docNewerFirst
          (st.documents.filter (fun x => x.id != id))).mem_iff.mp hd
      have hne := (List.mem_filter.mp hd2).2
      simpa using hne
    · rw [hdel]
      simp [getDownload, hgate, findDocumentById, hfind]

/-- Claim C7, witness: deleting id 2 (absent) from the demo state answers
404; deleting id 1 (present) succeeds and its download then answers 404. -/
theorem C7_witness :
    deleteDocument demoState authedSession 2
      = (DeleteResponse.err 404 "ファイルが見つかりません。", demoState)
    ∧ (deleteDocument demoState authedSession 1).1
      = DeleteResponse.ok "文書が正常に削除されました。"
    ∧ getDownload (deleteDocument demoState authedSession 1).2 authedSession 1
      = DownloadResponse.err 404 "ファイルが見つかりません。" :=
  ⟨(C7_delete_document demoState authedSession 2 (by decide)).1 (by decide),
   ((C7_delete_document demoState authedSession 1 (by decide)).2 demoDoc (by decide)).1,
   ((C7_delete_document demoState authedSession 1 (by decide)).2 demoDoc (by decide)).2.2.2⟩

/-- Claim C8: with a valid session whose username is non-empty and a
non-empty content, comment creation succeeds for EVERY articleId — the
theorem places no hypothesis whatsoever on the articles table, so in
particular it covers states where no articles row carries that id — and
answers the new id while appending exactly one row referencing
articleId. -/
theorem C8_comment_insert_without_article_check (st : ServerState) (sess : Session)
    (articleId : Nat) (content : String) (ts : Nat)
    (hauth : sessionAuthenticated sess = true)
    (hcontent : content ≠ "")
    (hauthor : sess.username ≠ "") :
    (postComment st sess articleId content ts).1
      = CommentResponse.ok "コメントが正常に投稿されました。" st.nextCommentId
    ∧ (postComment st sess articleId content ts).2.comments
      = st.comments ++ [⟨st.nextCommentId, articleId, content, sess.username, ts⟩] := by
  have hgate := requireAuth_proceed hauth
  have hcond : ¬(content = "" ∨ sess.username = "") := by
    rintro (h | h)
    · exact hcontent h
    · exact hauthor h
  constructor
  · simp [postComment, hgate, hcond]
  · simp [postComment, hgate, hcond]

/-- Claim C8, witness: in a state whose articles table is EMPTY, a
comment against article id 42 still succeeds and is stored. -/
theorem C8_witness :
    (postComment emptyState authedSession 42 "nice talk" 5).1
      = CommentResponse.ok "コメントが正常に投稿されました。" 1
    ∧ (postComment emptyState authedSession 42 "nice talk" 5).2.comments
      = [⟨1, 42, "nice talk", "alice", 5⟩] :=
  C8_comment_insert_without_article_check emptyState authedSession 42 "nice talk" 5
    (by decide) (by decide) (by decide)

/-- Claim C9: an authorized upload whose file passes the extension filter
and the size limit but whose title is missing is answered 400 only after
the multer middleware has already written the file: the uploads directory
gains the stored file while the documents table is unchanged. -/
theorem C9_upload_writes_file_before_title_validation (st : ServerState) (sess : Session)
    (f : IncomingFile) (ts : Nat)
    (hauth : sessionAuthenticated sess = true)
    (hext : lowerAscii (splitExt f.originalname).2 ∈ allowedTypes)
    (hsize : ¬ fileSizeLimit < f.size) :
    (postUpload st sess (some f) "" ts).1
      = UploadResponse.errJson 400 "タイトルと作成者は必須です。"
    ∧ (postUpload st sess (some f) "" ts).2.files
      = st.files ++ ["uploads/" ++ storageFilename f.originalname ts]
    ∧ (postUpload st sess (some f) "" ts).2.documents = st.documents := by
  have hgate := requireAuth_proceed hauth
  refine ⟨?_, ?_, ?_⟩ <;>
    simp [postUpload, hgate, multerSingle, fileFilter, hext, hsize]

/-- Claim C9, witness: uploading "notes.txt" with an empty title is
answered 400, yet "uploads/notes_7.txt" now sits on disk and the
documents table stays empty. -/
theorem C9_witness :
    (postUpload emptyState authedSession (some ⟨"notes.txt", 100⟩) "" 7).1
      = UploadResponse.errJson 400 "タイトルと作成者は必須です。"
    ∧ (postUpload emptyState authedSession (some ⟨"notes.txt", 100⟩) "" 7).2.files
      = ["uploads/notes_7.txt"]
    ∧ (postUpload emptyState authedSession (some ⟨"notes.txt", 100⟩) "" 7).2.documents = [] := by
  have h := C9_upload_writes_file_before_title_validation emptyState authedSession
    ⟨"notes.txt", 100⟩ 7 (by decide) (by decide) (by decide)
  exact ⟨h.1, h.2.1.trans (by decide), h.2.2⟩

/-- Claim C10: a sessionless `GET /` serves the index page — the root
route carries no `requireAuth` — while the `/documents`, `/knowledge` and
`/upload` page routes redirect the same request to `/login`. -/
theorem C10_root_page_not_gated (sess : Session)
    (hno : sessionAuthenticated sess = false) :
    getRootPage sess = PageResponse.sendFile "index.html"
    ∧ getDocumentsPage sess = PageResponse.redirect "/login"
    ∧ getKnowledgePage sess = PageResponse.redirect "/login"
    ∧ getUploadPage sess = PageResponse.redirect "/login" := by
  have hgate := requireAuth_redirect hno
  exact ⟨rfl, by simp [getDocumentsPage, hgate], by simp [getKnowledgePage, hgate],
    by simp [getUploadPage, hgate]⟩

/-- Claim C10, witness at the sessionless request. -/
theorem C10_witness :
    getRootPage noSession = PageResponse.sendFile "index.html"
    ∧ getDocumentsPage noSession = PageResponse.redirect "/login"
    ∧ getKnowledgePage noSession = PageResponse.redirect "/login"
    ∧ getUploadPage noSession = PageResponse.redirect "/login" :=
  C10_root_page_not_gated noSession (by decide)

end StudyGroupPortal
